import Mathlib

/-!
Shallow embedding of the record-reconciliation logic of the
`airtable-heroku` repository, together with proofs settling the claims
about its specification.

Conventions of the embedding:
* JavaScript strings are Lean `String`; a JS value that may be
  `null`/`undefined` is an `Option String` (with `none` for both — the
  code under study never distinguishes them).
* JS truthiness of such a value is `jsTruthy`: `null`, `undefined` and
  the empty string are falsy.
* JS `Date` values are modelled as minutes since the Unix epoch
  (`Int`), together with an explicit local-timezone offset `off`
  (minutes east of UTC) wherever the code reads local calendar fields
  or parses a non-ISO date string.
* Fallible operations return `Option`.
-/

/-- JS truthiness of a nullable string: `null`/`undefined`/`""` are falsy. -/
def jsTruthy : Option String → Bool
  | none => false
  | some s => decide (s ≠ "")

/-- `str.replace(/\D/g, "")`: keep only decimal digits. -/
def digitsOnly (s : String) : String :=
  ⟨s.data.filter Char.isDigit⟩

/-- JS `str.slice(-n)`: the last `n` characters (the whole string when
it is shorter than `n`). -/
def jsSliceLast (n : Nat) (s : String) : String :=
  ⟨s.data.drop (s.data.length - n)⟩

/-- `standardizePhoneNumber` from `src/src/utils/formatters.js`:
`if (!phone) return null; return phone.replace(/\D/g, '').slice(-10);` -/
def standardizePhoneNumber (phone : Option String) : Option String :=
  if jsTruthy phone then some (jsSliceLast 10 (digitsOnly (phone.getD ""))) else none

/-- Split a character list at every occurrence of `c` (the pieces do not
contain `c`; `n` separators yield `n + 1` pieces). -/
def splitOnChar (c : Char) : List Char → List (List Char)
  | [] => [[]]
  | x :: xs =>
    let r := splitOnChar c xs
    if x = c then [] :: r
    else
      match r with
      | [] => [[x]]
      | y :: ys => (x :: y) :: ys

/-- JS `str.split(sep)` for a single-character separator. -/
def jsSplit (s : String) (c : Char) : List String :=
  (splitOnChar c s.data).map fun l => ⟨l⟩

/-- Interpolation of a possibly-undefined string in a JS template
literal: `undefined` prints as `"undefined"`. -/
def jsTemplateStr (o : Option String) : String :=
  o.getD "undefined"

/-- `formatDate` from `src/src/utils/formatters.js`:
`if (!date) return null; const [year, month, day] = date.split('-');`
then the template `` `${month}/${day}/${year}` ``.  The destructuring
takes the first three pieces of the split (missing pieces are
`undefined`). -/
def formatDate (date : Option String) : Option String :=
  if jsTruthy date then
    let parts := jsSplit (date.getD "") '-'
    some (jsTemplateStr (parts.get? 1) ++ "/" ++ jsTemplateStr (parts.get? 2) ++ "/"
      ++ jsTemplateStr (parts.get? 0))
  else none

/-!
### A model of JS `Date`

A `Date` value is its timestamp in minutes since the Unix epoch.  The
host timezone enters as an explicit offset `off` in minutes east of
UTC: local time is `t + off`.  Calendar conversion uses the standard
proleptic-Gregorian Julian-day-number formulas (floor division), which
agree with ECMAScript's calendar for the dates this program handles.
-/

/-- The decimal digit character for `d % 10`. -/
def digitChar (d : Nat) : Char :=
  match d with
  | 0 => '0' | 1 => '1' | 2 => '2' | 3 => '3' | 4 => '4'
  | 5 => '5' | 6 => '6' | 7 => '7' | 8 => '8' | _ => '9'

/-- Decimal digits of `n`, most significant first (fuel-guarded base-10
expansion; the fuel `n + 1` always suffices). -/
def natDigitsAux : Nat → Nat → List Char → List Char
  | 0, _, acc => acc
  | fuel + 1, n, acc =>
    if n < 10 then digitChar n :: acc
    else natDigitsAux fuel (n / 10) (digitChar (n % 10) :: acc)

/-- Decimal rendering of a natural number. -/
def natToString (n : Nat) : String :=
  ⟨natDigitsAux (n + 1) n []⟩

/-- JS `(i).toString()` for an integer. -/
def intToString (i : Int) : String :=
  if i < 0 then "-" ++ natToString i.natAbs else natToString i.natAbs

/-- Parse a nonempty all-digit character list as a natural number. -/
def listToNat? (l : List Char) : Option Nat :=
  if l ≠ [] ∧ l.all Char.isDigit then
    some (l.foldl (fun acc c => 10 * acc + (c.toNat - 48)) 0)
  else none

/-- Parse a nonempty all-digit string as a natural number. -/
def strToNat? (s : String) : Option Nat :=
  listToNat? s.data

/-- Julian day number of a Gregorian civil date (floor-division form). -/
def jdnOfCivil (y m d : Int) : Int :=
  let a := (14 - m).fdiv 12
  let y2 := y + 4800 - a
  let m2 := m + 12 * a - 3
  d + (153 * m2 + 2).fdiv 5 + 365 * y2 + y2.fdiv 4 - y2.fdiv 100 + y2.fdiv 400 - 32045

/-- Days since the Unix epoch of a Gregorian civil date. -/
def epochDaysOfCivil (y m d : Int) : Int :=
  jdnOfCivil y m d - 2440588

/-- Gregorian civil date `(year, month, day)` of a Julian day number. -/
def civilOfJdn (jdn : Int) : Int × Int × Int :=
  let a := jdn + 32044
  let b := (4 * a + 3).fdiv 146097
  let c := a - (146097 * b).fdiv 4
  let dq := (4 * c + 3).fdiv 1461
  let e := c - (1461 * dq).fdiv 4
  let mq := (5 * e + 2).fdiv 153
  let day := e - (153 * mq + 2).fdiv 5 + 1
  let month := mq + 3 - 12 * mq.fdiv 10
  let year := 100 * b + dq - 4800 + mq.fdiv 10
  (year, month, day)

/-- Gregorian civil date of a days-since-epoch count. -/
def civilOfEpochDays (z : Int) : Int × Int × Int :=
  civilOfJdn (z + 2440588)

/-- UTC calendar date of a timestamp (`getUTCFullYear/Month/Date`). -/
def utcCivilOfMin (t : Int) : Int × Int × Int :=
  civilOfEpochDays (t.fdiv 1440)

/-- Local calendar date of a timestamp in a timezone `off` minutes east
of UTC (`getFullYear/getMonth/getDate`). -/
def localCivilOfMin (off t : Int) : Int × Int × Int :=
  civilOfEpochDays ((t + off).fdiv 1440)

/-- JS `(n).toString().padStart(2, '0')`. -/
def pad2 (n : Int) : String :=
  let s := intToString n
  if s.length < 2 then "0" ++ s else s

/-- The `MM/DD/YYYY` template used by every date renderer in the
repository: month and day zero-padded to two characters, year as-is. -/
def renderMDY (c : Int × Int × Int) : String :=
  pad2 c.2.1 ++ "/" ++ pad2 c.2.2 ++ "/" ++ intToString c.1

/-- Parse a date-only `Y-M-D` string into `(year, month, day)`.  JS
treats such ISO date-only strings as UTC midnight. -/
def parseIsoYmd (s : String) : Option (Int × Int × Int) :=
  match jsSplit s '-' with
  | [ys, ms, ds] =>
    match strToNat? ys, strToNat? ms, strToNat? ds with
    | some y, some m, some d =>
      if 1 ≤ m ∧ m ≤ 12 ∧ 1 ≤ d ∧ d ≤ 31 then some ((y : Int), (m : Int), (d : Int))
      else none
    | _, _, _ => none
  | _ => none

/-- Parse a `M/D/Y` string into `(year, month, day)`.  JS treats such
locale date strings as local midnight. -/
def parseMdy (s : String) : Option (Int × Int × Int) :=
  match jsSplit s '/' with
  | [ms, ds, ys] =>
    match strToNat? ys, strToNat? ms, strToNat? ds with
    | some y, some m, some d =>
      if 1 ≤ m ∧ m ≤ 12 ∧ 1 ≤ d ∧ d ≤ 31 then some ((y : Int), (m : Int), (d : Int))
      else none
    | _, _, _ => none
  | _ => none

/-- `new Date(s)` for the two string shapes this program stores:
date-only ISO strings parse as UTC midnight, `M/D/Y` strings parse as
local midnight (hence depend on the timezone offset), anything else is
an invalid date.  Result is the timestamp in minutes since the epoch. -/
def jsDateParseMin (off : Int) (s : String) : Option Int :=
  match parseIsoYmd s with
  | some (y, m, d) => some (1440 * epochDaysOfCivil y m d)
  | none =>
    match parseMdy s with
    | some (y, m, d) => some (1440 * epochDaysOfCivil y m d - off)
    | none => none

/-- `formatDate` from `src/src/services/postgres.js` (string input):
`if (!date) return null;` then `new Date(date)`, `null` when invalid,
otherwise the `MM/DD/YYYY` template over the **local** calendar fields
`getMonth() + 1`, `getDate()`, `getFullYear()`. -/
def pgFormatDate (off : Int) (date : Option String) : Option String :=
  if jsTruthy date then
    match jsDateParseMin off (date.getD "") with
    | some t => some (renderMDY (localCivilOfMin off t))
    | none => none
  else none

/-- `formatDateToString` from `src/src/sync/contact-info.js` (string
input): `if (!date) return '';` then `new Date(date)` and the
`MM/DD/YYYY` template over the **UTC** calendar fields
`getUTCMonth() + 1`, `getUTCDate()`, `getUTCFullYear()`.  On an invalid
date the three fields are `NaN`. -/
def formatDateToString (off : Int) (date : Option String) : String :=
  if jsTruthy date then
    match jsDateParseMin off (date.getD "") with
    | some t => renderMDY (utcCivilOfMin t)
    | none => "NaN/NaN/NaN"
  else ""

/-- `formatDateToString` applied to a value that is already a JS `Date`
(a Postgres `hire_date` column): `new Date(d)` copies the timestamp. -/
def formatDateToStringOfDate (t : Option Int) : String :=
  match t with
  | none => ""
  | some t => renderMDY (utcCivilOfMin t)

/-!
### Data model

`AirRecord` is a ledger (Airtable) row as the sync code sees it: an
opaque `id` plus the fetched fields, each possibly absent.
`createdTime` is the record's creation timestamp from the data model;
the duplicate detector never fetches or reads it, it is carried only so
that recency-based statements about survivors can be expressed.
`PgEmployee` is one source row as returned by the employee queries. -/

structure AirRecord where
  id : String
  rscEmpId : Option String := none
  email : Option String := none
  phone : Option String := none
  name : Option String := none
  statusField : Option String := none
  statusRSPG : Option String := none
  hireDate : Option String := none
  potentialDuplicate : Option String := none
  createdTime : Nat := 0
deriving DecidableEq

structure PgEmployee where
  employee_id : Nat
  name : String := ""
  email : Option String := none
  mobile_phone : Option String := none
  active : Bool := true
  hire_date : Option Int := none
  created_at : Nat := 0
  updated_at : Option Nat := none
deriving DecidableEq

/-!
### Identity Resolver — `findExistingRecord` (`src/unnamed/part_007`)

The resolver tries the keys in the fixed order employee-id, email,
phone, name; each branch is guarded by raw truthiness of the source
value and returns the **first** matching ledger record together with a
match-reason string. -/

/-- `record.fields['RSC Emp ID'] === newEmployee.employee_id.toString()` -/
def empKeyHit (e : PgEmployee) (r : AirRecord) : Bool :=
  r.rscEmpId == some (natToString e.employee_id)

/-- `record.fields['Email']?.toLowerCase() === newEmployee.email.toLowerCase()` -/
def emailKeyHit (e : PgEmployee) (r : AirRecord) : Bool :=
  r.email.map String.toLower == e.email.map String.toLower

/-- `standardizePhoneNumber(newEmployee.mobile_phone) === standardizePhoneNumber(record.fields['Phone'])` -/
def phoneKeyHit (e : PgEmployee) (r : AirRecord) : Bool :=
  standardizePhoneNumber e.mobile_phone == standardizePhoneNumber r.phone

/-- `record.fields['Name']?.toLowerCase() === newEmployee.name.toLowerCase()` -/
def nameKeyHit (e : PgEmployee) (r : AirRecord) : Bool :=
  r.name.map String.toLower == some e.name.toLower

/-- `findExistingRecord` from `src/unnamed/part_007`: cascading key
precedence employee-id, then email, then phone, then name; `none` when
no key yields a match (the JS `{match: null, matchReason: null}`). -/
def findExistingRecord (e : PgEmployee) (rs : List AirRecord) : Option (AirRecord × String) :=
  match (if e.employee_id ≠ 0 then rs.find? (empKeyHit e) else none) with
  | some r => some (r, "RSC Emp ID")
  | none =>
    match (if jsTruthy e.email then rs.find? (emailKeyHit e) else none) with
    | some r => some (r, "Email")
    | none =>
      match (if jsTruthy e.mobile_phone then rs.find? (phoneKeyHit e) else none) with
      | some r => some (r, "Phone")
      | none =>
        match (if e.name ≠ "" then rs.find? (nameKeyHit e) else none) with
        | some r => some (r, "Name")
        | none => none

/-!
### Diff helpers — `src/src/sync/contact-info.js`
-/

/-- The listed-status value `pgRecord.active ? 'Active' : 'Inactive'`. -/
def listedStatusOf (active : Bool) : String :=
  if active then "Active" else "Inactive"

/-- The employment-status value `pgRecord.active ? 'Hired' : 'Separated'`. -/
def employmentStatusOf (active : Bool) : String :=
  if active then "Hired" else "Separated"

structure DetUpdates where
  needsEmpId : Bool
  needsPhone : Bool
  needsEmail : Bool
  needsStatusRSPG : Bool
  needsStatusField : Bool
  needsName : Bool
deriving DecidableEq

/-- `determineUpdates` from `src/src/sync/contact-info.js` lines
112-121, applied to the fetched Airtable fields and a Postgres row. -/
def determineUpdates (f : AirRecord) (pg : PgEmployee) : DetUpdates where
  needsEmpId := !jsTruthy f.rscEmpId
  needsPhone := !jsTruthy f.phone && jsTruthy pg.mobile_phone
  needsEmail := !jsTruthy f.email && jsTruthy pg.email
  needsStatusRSPG := f.statusRSPG != some (listedStatusOf pg.active)
  needsStatusField := f.statusField != some (employmentStatusOf pg.active)
  needsName := f.name != some pg.name

/-- The `updateFields` object assembled in `matchAndUpdateEmails`
(`contact-info.js` lines 233-239) from a match's `updates` flags.
Values are `Option String` because `match.name` is not set on the match
object, so the `needsName` branch stores JS `undefined`; the
`needsHireDate` flag is likewise never set by `determineUpdates`, so
its branch is dead code and contributes nothing. -/
def emailSyncUpdateFields (u : DetUpdates) (pgEmployeeId : Nat) (pgPhone : Option String)
    (isActive : Bool) : List (String × Option String) :=
  (if u.needsEmpId then [("RSC Emp ID", some (natToString pgEmployeeId))] else []) ++
  (if u.needsPhone then [("Phone", pgPhone)] else []) ++
  (if u.needsStatusRSPG then [("Status-RSPG", some (listedStatusOf isActive))] else []) ++
  (if u.needsStatusField then [("Status", some (employmentStatusOf isActive))] else []) ++
  (if u.needsName then [("Name", none)] else [])

/-- The `updateFields` object assembled per matched pair in
`syncEmployeeData` (`contact-info.js` lines 592-638): name, the two
status fields and the hire date, each added only when it differs from
the current ledger value; the hire-date comparison goes through
`formatDateToString` on both sides and only runs when the source has a
hire date. -/
def ciUpdateFields (off : Int) (air : AirRecord) (pg : PgEmployee) : List (String × String) :=
  (if air.name != some pg.name then [("Name", pg.name)] else []) ++
  (if air.statusRSPG != some (listedStatusOf pg.active) then
    [("Status-RSPG", listedStatusOf pg.active)] else []) ++
  (if air.statusField != some (employmentStatusOf pg.active) then
    [("Status", employmentStatusOf pg.active)] else []) ++
  (match pg.hire_date with
   | none => []
   | some t =>
     let pgDate := formatDateToStringOfDate (some t)
     let airDate := formatDateToString off air.hireDate
     if pgDate != airDate then [("RSC Hire Date", pgDate)] else [])

/-!
### Update Executor — the update loop of `syncEmployeeData`
(`contact-info.js` lines 646-659)

`failsOn` is the oracle telling which record ids the remote update call
raises on.  Each plan is attempted exactly once, in order; a failure is
caught, pushed onto the error list, and the loop continues. -/

structure CiPlan where
  recordId : String
  fields : List (String × String) := []
deriving DecidableEq

structure SyncReport where
  attempted : List String
  succeeded : Nat
  failedIds : List String
deriving DecidableEq

def runUpdates (failsOn : String → Bool) : List CiPlan → SyncReport
  | [] => ⟨[], 0, []⟩
  | p :: ps =>
    let rest := runUpdates failsOn ps
    if failsOn p.recordId then
      ⟨p.recordId :: rest.attempted, rest.succeeded, p.recordId :: rest.failedIds⟩
    else
      ⟨p.recordId :: rest.attempted, rest.succeeded + 1, rest.failedIds⟩

/-!
### Duplicate Detector — `findDuplicatesInMap` (`src/unnamed/part_010`)

The detector sorts each colliding bucket with the comparator
"active records first" (a stable two-class sort: JS `Array.sort` is
stable, and the comparator returns 0 inside each class), keeps the
first record of the sorted bucket, and flags the rest. -/

/-- `a.fields['Status'] === 'Active' || a.fields['Status-RSPG'] === 'Active'` -/
def dupIsActive (r : AirRecord) : Bool :=
  r.statusField == some "Active" || r.statusRSPG == some "Active"

/-- The stable sort performed on each bucket: active members first,
original fetch order preserved inside each class. -/
def dupSort (rs : List AirRecord) : List AirRecord :=
  rs.filter dupIsActive ++ rs.filter (fun r => !dupIsActive r)

/-- One flagged duplicate: the flagged record's id and the id of the
record it was kept in favour of (`duplicateWith.recordId`). -/
structure DupEntry where
  recordId : String
  keptRecordId : String
deriving DecidableEq

/-- The entries contributed by one bucket: nothing unless the bucket
has more than one member; otherwise every member after the first of the
sorted bucket, flagged against that first (surviving) member. -/
def groupDuplicates (rs : List AirRecord) : List DupEntry :=
  if rs.length > 1 then
    match dupSort rs with
    | [] => []
    | keep :: rest => rest.map fun r => ⟨r.id, keep.id⟩
  else []

/-- `findDuplicatesInMap` over the bucket map (`Object.entries` order). -/
def findDuplicatesInMap (m : List (String × List AirRecord)) : List DupEntry :=
  (m.map fun kv => groupDuplicates kv.2).flatten

/-- The record the detector keeps for a bucket (the first member of the
sorted bucket). -/
def survivorOf (rs : List AirRecord) : Option AirRecord :=
  (dupSort rs).head?

/-- Modelled from the spec: the survivor rule the claim states — an
active member if one exists, otherwise the most recently
created/updated member, ties broken by original fetch order.  (For the
none-active case the strict fold keeps the earliest of equally recent
members.) -/
def specMostRecentOf : List AirRecord → Option AirRecord
  | [] => none
  | r :: rs => some (rs.foldl (fun best x => if x.createdTime > best.createdTime then x else best) r)

/-!
### Guard-card sync — `syncPostgresToAirtable` (`src/src/sync/guard-cards.js`)

`GcAir` is an Airtable record after the field coercion done by
`getEmployeesFromAirtable` (missing fields become `''`, the stored
`GC Exp Date - RSPG` is rearranged from `YYYY-MM-DD` to `MM/DD/YYYY`).
`GcPg` is one Postgres license row; `expires_on` is a `Date` column
(timestamp or SQL `NULL`). -/

structure GcPg where
  employee_id : Nat
  name : Option String := none
  number : Option String := none
  expires_on : Option Int := none
  license_type_id : Option String := none
  active : Bool := true
deriving DecidableEq

structure GcAir where
  id : String
  rscEmpId : String := ""
  gc : String := ""
  gcExp : String := ""
  licType : String := ""
  statusRSPG : String := ""
  statusField : String := ""
deriving DecidableEq

/-- `formattedExpDate`: `''` when `expires_on` is null, otherwise the
`MM/DD/YYYY` template over the **local** calendar fields of the date. -/
def gcFormattedExpDate (off : Int) (expires_on : Option Int) : String :=
  match expires_on with
  | none => ""
  | some t => renderMDY (localCivilOfMin off t)

/-- JS whitespace for `trim` purposes. -/
def isJsSpace (c : Char) : Bool :=
  c = ' ' || c = '\t' || c = '\n' || c = '\r'

/-- JS `str.trim()`. -/
def jsTrim (s : String) : String :=
  ⟨((s.data.dropWhile isJsSpace).reverse.dropWhile isJsSpace).reverse⟩

/-- JS global replace of every dash by a slash. -/
def jsReplaceDashSlash (s : String) : String :=
  ⟨s.data.map fun c => if c = '-' then '/' else c⟩

/-- `currentExpDate`: the coerced Airtable expiry with `-` replaced by
`/` when nonempty. -/
def gcCurrentExpDate (air : GcAir) : String :=
  if air.gcExp ≠ "" then jsReplaceDashSlash air.gcExp else ""

/-- The `needsUpdate` disjunction of `syncPostgresToAirtable`
(`guard-cards.js` lines 210-222). -/
def gcNeedsUpdate (off : Int) (pg : GcPg) (air : GcAir) : Bool :=
  let currentGuardCard := air.gc
  let currentExpDate := gcCurrentExpDate air
  let currentLicenseType := air.licType
  let currentRscEmpId := air.rscEmpId
  let formattedExpDate := gcFormattedExpDate off pg.expires_on
  (currentRscEmpId != natToString pg.employee_id) ||
  (jsTruthy pg.number && decide (currentGuardCard = "")) ||
  (pg.expires_on.isSome && decide (currentExpDate = "")) ||
  (jsTruthy pg.license_type_id && decide (currentLicenseType = "")) ||
  (jsTruthy pg.number && decide (currentGuardCard ≠ "") &&
    (jsTrim currentGuardCard != jsTrim (pg.number.getD ""))) ||
  (pg.expires_on.isSome && decide (currentExpDate ≠ "") &&
    (jsTrim currentExpDate != jsTrim formattedExpDate)) ||
  (jsTruthy pg.license_type_id && decide (currentLicenseType ≠ "") &&
    (some currentLicenseType != pg.license_type_id)) ||
  (some air.statusRSPG != some (listedStatusOf pg.active)) ||
  (some air.statusField != some (employmentStatusOf pg.active))

/-- The `updateFields` object of `syncPostgresToAirtable`
(`guard-cards.js` lines 238-249): the full tracked field set is always
written — employee id, guard-card number (`|| ''`), expiry (an explicit
`null` clears it when the source has none), license type, and both
status fields. -/
def gcUpdateFields (off : Int) (pg : GcPg) : List (String × Option String) :=
  [("RSC Emp ID", some (natToString pg.employee_id)),
   ("GC - RSPG", some (pg.number.getD "")),
   ("GC Exp Date - RSPG",
     match pg.expires_on with
     | none => none
     | some t => some (renderMDY (localCivilOfMin off t))),
   ("license type id - RSPG", pg.license_type_id),
   ("Status-RSPG", some (listedStatusOf pg.active)),
   ("Status", some (employmentStatusOf pg.active))]

/-!
### Concrete instances used by witnesses and counterexamples
-/

def c1e : PgEmployee := { employee_id := 42, name := "Jane Doe", email := some "jane@x.com" }

def c1A : AirRecord := { id := "recA", rscEmpId := some "42" }

def c1B : AirRecord := { id := "recB", email := some "jane@x.com" }

def c2air : AirRecord :=
  { id := "recC", rscEmpId := some "99", email := some "jane@x.com",
    phone := some "5551234567", name := some "Jane Doe",
    statusField := some "Hired", statusRSPG := some "Active" }

def c2pg : PgEmployee :=
  { employee_id := 42, name := "Jane Doe", email := some "jane@x.com",
    mobile_phone := some "5551234567", active := true }

def c3e : PgEmployee := { employee_id := 7, name := "Zed Q", mobile_phone := some "abc" }

def c3b : AirRecord :=
  { id := "recB3", rscEmpId := some "99", phone := some "xyz", name := some "Other Person" }

def c3wp : PgEmployee := { employee_id := 5, name := "Pat Lee", email := some "pat@x.com" }

def c5r1 : AirRecord :=
  { id := "rec1", email := some "dup@x.com", statusField := some "Separated",
    statusRSPG := some "Inactive", createdTime := 1 }

def c5r2 : AirRecord :=
  { id := "rec2", email := some "dup@x.com", statusField := some "Separated",
    statusRSPG := some "Inactive", createdTime := 2 }

def c6pg : GcPg :=
  { employee_id := 42, name := some "Ann B", number := some "GC1",
    license_type_id := some "1", active := true }

def c6air : GcAir :=
  { id := "recA6", rscEmpId := "42", gc := "GC1", licType := "1",
    statusRSPG := "Inactive", statusField := "Separated" }

def c6wAir : AirRecord :=
  { id := "recW", name := some "Old Name", statusRSPG := some "Active",
    statusField := some "Hired" }

def c6wPg : PgEmployee := { employee_id := 8, name := "New Name", active := true }

def c4plans : List CiPlan :=
  [{ recordId := "r1" }, { recordId := "r2" }, { recordId := "r3" },
   { recordId := "r4" }, { recordId := "r5" }]

/-!
## Theorems
-/

/-! ### Helper lemmas -/

theorem jsTruthy_some_true {s : String} (h : s ≠ "") : jsTruthy (some s) = true := by
  simp [jsTruthy, h]

theorem string_ne_empty_of_data {l : List Char} (h : l ≠ []) : (⟨l⟩ : String) ≠ "" := by
  intro he
  rw [String.ext_iff] at he
  exact h he

theorem data_ne_nil_of_ne_empty {s : String} (h : s ≠ "") : s.data ≠ [] := by
  intro he
  apply h
  rw [String.ext_iff]
  exact he

theorem jsSliceLast_ne_empty {s : String} (h : s ≠ "") : jsSliceLast 10 s ≠ "" := by
  apply string_ne_empty_of_data
  have hpos : 0 < s.data.length := List.length_pos.mpr (data_ne_nil_of_ne_empty h)
  intro he
  have h2 := congrArg List.length he
  rw [List.length_drop, List.length_nil] at h2
  omega

theorem digitsOnly_all_digits (s : String) : (digitsOnly s).data.all Char.isDigit = true := by
  simp [digitsOnly]

theorem digitsOnly_of_all_digits {s : String} (h : s.data.all Char.isDigit = true) :
    digitsOnly s = s := by
  have : s.data.filter Char.isDigit = s.data := by
    apply List.filter_eq_self.mpr
    intro a ha
    exact List.all_eq_true.mp h a ha
  show (⟨s.data.filter Char.isDigit⟩ : String) = s
  rw [this]

theorem jsSliceLast_all_digits {s : String} (h : s.data.all Char.isDigit = true) :
    (jsSliceLast 10 s).data.all Char.isDigit = true := by
  simp only [jsSliceLast]
  apply List.all_eq_true.mpr
  intro a ha
  exact List.all_eq_true.mp h a (List.mem_of_mem_drop ha)

theorem jsSliceLast_length_le (s : String) : (jsSliceLast 10 s).data.length ≤ 10 := by
  simp [jsSliceLast, List.length_drop]
  omega

theorem jsSliceLast_of_le {s : String} (h : s.data.length ≤ 10) : jsSliceLast 10 s = s := by
  have : s.data.length - 10 = 0 := by omega
  show (⟨s.data.drop (s.data.length - 10)⟩ : String) = s
  rw [this, List.drop_zero]

/-- `standardizePhoneNumber` is idempotent on inputs whose digit string
is nonempty. -/
theorem standardizePhone_idem_of_digits {x : Option String}
    (h : digitsOnly (x.getD "") ≠ "") :
    standardizePhoneNumber (standardizePhoneNumber x) = standardizePhoneNumber x := by
  match x with
  | none => simp [standardizePhoneNumber, jsTruthy]
  | some s =>
    have hs : s ≠ "" := by
      intro he
      apply h
      rw [he]
      rfl
    have ht : jsTruthy (some s) = true := jsTruthy_some_true hs
    have hdig : digitsOnly s ≠ "" := h
    have hd : jsSliceLast 10 (digitsOnly s) ≠ "" := jsSliceLast_ne_empty hdig
    have ht2 : jsTruthy (some (jsSliceLast 10 (digitsOnly s))) = true := jsTruthy_some_true hd
    simp only [standardizePhoneNumber, ht, if_pos, Option.getD_some, ht2, if_true]
    have hall : (jsSliceLast 10 (digitsOnly s)).data.all Char.isDigit = true :=
      jsSliceLast_all_digits (digitsOnly_all_digits s)
    rw [digitsOnly_of_all_digits hall,
      jsSliceLast_of_le (jsSliceLast_length_le (digitsOnly s))]

/-! ### C4 -/

/-- C4: the update executor of `syncEmployeeData` attempts every plan
exactly once and in order regardless of earlier failures, catches and
records each failing plan, and reports `succeeded` as the number of
non-failing plans and the failed list as exactly the failing plans; in
particular five plans with the third failing yield `succeeded = 4`,
`failed = 1`. -/
theorem c4_partial_failure_isolation (failsOn : String → Bool) (plans : List CiPlan) :
    (runUpdates failsOn plans).attempted = plans.map CiPlan.recordId ∧
    (runUpdates failsOn plans).succeeded =
      (plans.filter fun p => !failsOn p.recordId).length ∧
    (runUpdates failsOn plans).failedIds =
      (plans.filter fun p => failsOn p.recordId).map CiPlan.recordId ∧
    runUpdates (fun s => s == "r3") c4plans = ⟨["r1", "r2", "r3", "r4", "r5"], 4, ["r3"]⟩ := by
  refine ⟨?_, ?_, ?_, by decide⟩
  all_goals
    induction plans with
    | nil => rfl
    | cons p ps ih =>
      by_cases h : failsOn p.recordId = true <;>
        simp [runUpdates, h, ih, List.filter_cons]

/-! ### C9 -/

/-- C9 counterexample: `formatDate` from `src/src/utils/formatters.js`
maps the unparseable input `"not-a-date"` to the malformed string
`"a/date/not"`, not to `null` as the claim states. -/
theorem c9_counterexample :
    formatDate (some "not-a-date") = some "a/date/not" ∧
    formatDate (some "not-a-date") ≠ none := by
  refine ⟨by decide, by decide⟩

/-- C9 amended: `formatDate` maps `"2023-01-15"` to `"01/15/2023"` and
`null` to `null`, but maps the unparseable `"not-a-date"` to the
malformed string `"a/date/not"` rather than `null`; only the
`postgres.js` copy of `formatDate` returns `null` on unparseable
input. -/
theorem c9_amended :
    formatDate (some "2023-01-15") = some "01/15/2023" ∧
    formatDate none = none ∧
    formatDate (some "not-a-date") = some "a/date/not" ∧
    ∀ off : Int, pgFormatDate off (some "not-a-date") = none := by
  refine ⟨by decide, rfl, by decide, fun off => rfl⟩

/-! ### C10 -/

/-- C10 counterexample: neither normalizer is idempotent on all inputs:
`standardizePhoneNumber("abc") = ""` but a second application yields
`null`, and `formatDate("2023-01-15") = "01/15/2023"` while a second
application yields `"undefined/undefined/01/15/2023"`. -/
theorem c10_counterexample :
    standardizePhoneNumber (standardizePhoneNumber (some "abc")) ≠
      standardizePhoneNumber (some "abc") ∧
    formatDate (formatDate (some "2023-01-15")) ≠ formatDate (some "2023-01-15") := by
  refine ⟨by decide, by decide⟩

/-- C10 amended: `standardizePhoneNumber` is idempotent exactly on the
inputs that are falsy or contain at least one digit (it fails on truthy
digit-free inputs such as `"abc"`), and `formatDate` is idempotent only
on falsy inputs. -/
theorem c10_amended (x y : Option String)
    (hx : jsTruthy x = false ∨ digitsOnly (x.getD "") ≠ "")
    (hy : jsTruthy y = false) :
    standardizePhoneNumber (standardizePhoneNumber x) = standardizePhoneNumber x ∧
    formatDate (formatDate y) = formatDate y := by
  constructor
  · rcases hx with hx | hx
    · have h1 : standardizePhoneNumber x = none := by simp [standardizePhoneNumber, hx]
      rw [h1]
      rfl
    · exact standardizePhone_idem_of_digits hx
  · have h2 : formatDate y = none := by simp [formatDate, hy]
    rw [h2]
    rfl

/-- C10 witness: the amended idempotence applied at the digit-bearing
input `"123abc"` and the falsy input `null`. -/
theorem c10_witness :
    standardizePhoneNumber (standardizePhoneNumber (some "123abc")) =
      standardizePhoneNumber (some "123abc") ∧
    formatDate (formatDate none) = formatDate none :=
  c10_amended (some "123abc") none (Or.inr (by decide)) rfl

/-! ### C8 -/

/-- C8 counterexample: `formatDate` from `src/src/services/postgres.js`
renders the bare ISO date `"2023-01-15"` from **local** calendar
fields, so in a timezone 300 minutes west of UTC it yields the previous
calendar day, while at UTC it yields the day itself — the same input
renders to different calendar days in different time zones. -/
theorem c8_counterexample :
    pgFormatDate (-300) (some "2023-01-15") = some "01/14/2023" ∧
    pgFormatDate 0 (some "2023-01-15") = some "01/15/2023" ∧
    pgFormatDate (-300) (some "2023-01-15") ≠ pgFormatDate 0 (some "2023-01-15") := by
  refine ⟨by decide, by decide, by decide⟩

/-- C8 amended: `formatDateToString` from `contact-info.js` renders
from UTC calendar fields, so a bare `YYYY-MM-DD` input renders to the
same calendar day in every time zone; but the `postgres.js` renderer
(and the inline guard-card expiry rendering, which uses the same local
fields) shifts the day for west-of-UTC timezones. -/
theorem c8_amended (off1 off2 : Int) (s : String)
    (h : (parseIsoYmd s).isSome = true) :
    formatDateToString off1 (some s) = formatDateToString off2 (some s) ∧
    pgFormatDate 0 (some "2023-01-15") = some "01/15/2023" ∧
    pgFormatDate (-300) (some "2023-01-15") = some "01/14/2023" := by
  refine ⟨?_, by decide, by decide⟩
  obtain ⟨⟨y, m, d⟩, hv⟩ := Option.isSome_iff_exists.mp h
  have hne : s ≠ "" := by
    intro he
    rw [he, show parseIsoYmd "" = none from rfl] at hv
    simp at hv
  have ht : jsTruthy (some s) = true := jsTruthy_some_true hne
  simp [formatDateToString, ht, jsDateParseMin, hv]

/-- C8 witness: the amended statement applied at offsets `0` and
`-300` and the bare ISO date `"2023-01-15"`. -/
theorem c8_witness :
    formatDateToString 0 (some "2023-01-15") = formatDateToString (-300) (some "2023-01-15") ∧
    pgFormatDate 0 (some "2023-01-15") = some "01/15/2023" ∧
    pgFormatDate (-300) (some "2023-01-15") = some "01/14/2023" :=
  c8_amended 0 (-300) "2023-01-15" (by decide)

/-! ### C1 -/

/-- C1: the identity resolver tries the employee-id key first and stops
on a hit — whenever some ledger record matches the source entity's
employee id, `findExistingRecord` returns an employee-id match with
reason `"RSC Emp ID"`; in particular it never returns a record `B`
that matches only by email. -/
theorem c1_empid_precedence (e : PgEmployee) (rs : List AirRecord) (B : AirRecord)
    (hid : e.employee_id ≠ 0)
    (hA : ∃ A ∈ rs, empKeyHit e A = true)
    (hBnoid : empKeyHit e B = false) :
    ∃ A, findExistingRecord e rs = some (A, "RSC Emp ID") ∧ empKeyHit e A = true ∧ A ≠ B := by
  have hfind : (rs.find? (empKeyHit e)).isSome := by
    rw [List.find?_isSome]
    obtain ⟨A, hmem, hkey⟩ := hA
    exact ⟨A, hmem, hkey⟩
  obtain ⟨A, hAeq⟩ := Option.isSome_iff_exists.mp hfind
  have hkeyA : empKeyHit e A = true := List.find?_some hAeq
  refine ⟨A, ?_, hkeyA, ?_⟩
  · unfold findExistingRecord
    rw [if_pos hid, hAeq]
  · intro hcontra
    rw [hcontra, hBnoid] at hkeyA
    cases hkeyA

/-- C1 witness: source entity `c1e` (id 42, email jane@x.com) against
the ledger `[c1B, c1A]`, where `c1B` matches only by email and `c1A`
matches by employee id but is fetched later: the resolver returns the
employee-id match, never `c1B`. -/
theorem c1_witness :
    ∃ A, findExistingRecord c1e [c1B, c1A] = some (A, "RSC Emp ID") ∧
      empKeyHit c1e A = true ∧ A ≠ c1B :=
  c1_empid_precedence c1e [c1B, c1A] c1B (by decide)
    ⟨c1A, by decide, by decide⟩ (by decide)

/-! ### C2 -/

/-- C2 counterexample: a ledger record whose stored employee id `"99"`
differs from the matched source id `42` gets `needsEmpId = false` from
`determineUpdates` (the flag only fires on a blank id), so the email
sync's update plan does not contain the employee-id field — the wrong
identity link is not healed. -/
theorem c2_counterexample :
    c2air.rscEmpId = some "99" ∧
    natToString c2pg.employee_id = "42" ∧
    c2air.rscEmpId ≠ some (natToString c2pg.employee_id) ∧
    (determineUpdates c2air c2pg).needsEmpId = false ∧
    "RSC Emp ID" ∉
      (emailSyncUpdateFields (determineUpdates c2air c2pg) c2pg.employee_id
        c2pg.mobile_phone c2pg.active).map Prod.fst := by
  refine ⟨rfl, by decide, by decide, by decide, by decide⟩

/-- C2 amended: the employee-id field is included in the computed
update plan exactly when the ledger's stored identity field is blank
(falsy); a non-blank stored identity that differs from the source id is
left unchanged. -/
theorem c2_amended (f : AirRecord) (pg : PgEmployee) (pgPhone : Option String) (act : Bool) :
    "RSC Emp ID" ∈
        (emailSyncUpdateFields (determineUpdates f pg) pg.employee_id pgPhone act).map Prod.fst ↔
      jsTruthy f.rscEmpId = false := by
  have hkey : (determineUpdates f pg).needsEmpId = !jsTruthy f.rscEmpId := rfl
  have hiff : ∀ (u : DetUpdates) (pid : Nat) (pp : Option String) (a : Bool),
      "RSC Emp ID" ∈ (emailSyncUpdateFields u pid pp a).map Prod.fst ↔ u.needsEmpId = true := by
    intro u pid pp a
    obtain ⟨u1, u2, u3, u4, u5, u6⟩ := u
    cases u1 <;> cases u2 <;> cases u4 <;> cases u5 <;> cases u6 <;>
      simp [emailSyncUpdateFields]
  rw [hiff, hkey]
  cases jsTruthy f.rscEmpId <;> simp

/-! ### C3 -/

/-- C3 counterexample: the phones `"abc"` and `"xyz"` both normalize to
the empty string, and `findExistingRecord` judges the pair matching on
the Phone key: a key derived from a value with no digits is used for
matching. -/
theorem c3_counterexample :
    standardizePhoneNumber c3e.mobile_phone = some "" ∧
    standardizePhoneNumber c3b.phone = some "" ∧
    findExistingRecord c3e [c3b] = some (c3b, "Phone") := by
  refine ⟨by decide, by decide, by decide⟩

/-- Whatever its other keys, a source entity whose email is falsy is
never matched on the Email key: the email branch of the cascade is
guarded by the email's own truthiness, and every other branch produces
a different reason string. -/
theorem findExisting_not_email (e : PgEmployee) (rs : List AirRecord)
    (hem : jsTruthy e.email = false) (r : AirRecord) :
    findExistingRecord e rs ≠ some (r, "Email") := by
  unfold findExistingRecord
  rw [hem]
  split
  · simp
  · split
    · simp_all
    · split
      · simp
      · split <;> simp

/-- Whatever its other keys, a source entity whose phone is falsy is
never matched on the Phone key. -/
theorem findExisting_not_phone (e : PgEmployee) (rs : List AirRecord)
    (hph : jsTruthy e.mobile_phone = false) (r : AirRecord) :
    findExistingRecord e rs ≠ some (r, "Phone") := by
  unfold findExistingRecord
  rw [hph]
  split
  · simp
  · split
    · simp
    · split
      · simp_all
      · split <;> simp

/-- C3 amended: the blank-key guard is per-key raw truthiness of the
unnormalized source value — an entity whose email is absent or empty is
never matched on the Email key regardless of its other keys, and an
entity whose phone is absent or empty is never matched on the Phone
key; but two phone values that both normalize to the empty string
(nonempty, digit-free strings) are matched on the Phone key. -/
theorem c3_amended (e : PgEmployee) (rs : List AirRecord) :
    (jsTruthy e.email = false → ∀ r, findExistingRecord e rs ≠ some (r, "Email")) ∧
    (jsTruthy e.mobile_phone = false → ∀ r, findExistingRecord e rs ≠ some (r, "Phone")) ∧
    findExistingRecord c3e [c3b] = some (c3b, "Phone") :=
  ⟨fun hem => findExisting_not_email e rs hem,
   fun hph => findExisting_not_phone e rs hph,
   by decide⟩

/-- C3 witness: the per-key guarantees exercised separately — the
Email guarantee at `c3e`, which has a (truthy) phone but no email, and
the Phone guarantee at `c3wp`, which has a (truthy) email but no
phone. -/
theorem c3_witness :
    (∀ r, findExistingRecord c3e [c3b] ≠ some (r, "Email")) ∧
    (∀ r, findExistingRecord c3wp [c3b] ≠ some (r, "Phone")) ∧
    findExistingRecord c3e [c3b] = some (c3b, "Phone") :=
  ⟨(c3_amended c3e [c3b]).1 (by decide),
   (c3_amended c3wp [c3b]).2.1 (by decide),
   (c3_amended c3e [c3b]).2.2⟩

/-! ### C5 -/

/-- C5 counterexample: a two-member email bucket with no active member
where the second record is the more recently created: the claim's rule
designates `c5r2` (the most recent) as survivor, but the detector keeps
the first-fetched `c5r1` and flags `c5r2`. -/
theorem c5_counterexample :
    dupIsActive c5r1 = false ∧
    dupIsActive c5r2 = false ∧
    c5r2.createdTime > c5r1.createdTime ∧
    specMostRecentOf [c5r1, c5r2] = some c5r2 ∧
    findDuplicatesInMap [("dup@x.com", [c5r1, c5r2])] = [⟨c5r2.id, c5r1.id⟩] := by
  refine ⟨by decide, by decide, by decide, by decide, by decide⟩

/-- C5 amended: for every duplicate bucket the detector's survivor is
an active member whenever one exists (the first active in fetch order,
regardless of where it was fetched); when no member is active the
survivor is the **first member in fetch order** (recency is never
consulted); and exactly the non-survivors — the rest of the sorted
bucket — are flagged. -/
theorem c5_amended (rs : List AirRecord) (h : rs ≠ []) :
    (survivorOf rs).isSome = true ∧
    (rs.filter dupIsActive ≠ [] → ∃ a, survivorOf rs = some a ∧ dupIsActive a = true) ∧
    (rs.filter dupIsActive = [] → survivorOf rs = rs.head?) ∧
    (rs.length > 1 →
      ∃ keep rest, dupSort rs = keep :: rest ∧ survivorOf rs = some keep ∧
        groupDuplicates rs = rest.map fun r => ⟨r.id, keep.id⟩) := by
  refine ⟨?_, ?_, ?_, ?_⟩
  · have hlength : (dupSort rs).length = rs.length :=
      (List.filter_append_perm dupIsActive rs).length_eq
    have hpos : 0 < rs.length := List.length_pos.mpr h
    match hd : dupSort rs with
    | [] =>
      rw [hd] at hlength
      simp at hlength
      omega
    | keep :: rest =>
      show ((dupSort rs).head?).isSome = true
      rw [hd]
      rfl
  · intro hact
    match hf : rs.filter dupIsActive with
    | [] => exact absurd hf hact
    | a :: t =>
      refine ⟨a, ?_, ?_⟩
      · show (dupSort rs).head? = some a
        unfold dupSort
        rw [hf]
        rfl
      · have : a ∈ rs.filter dupIsActive := by rw [hf]; exact List.mem_cons_self a t
        exact (List.mem_filter.mp this).2
  · intro hf
    have hall : ∀ a ∈ rs, ¬dupIsActive a = true := List.filter_eq_nil_iff.mp hf
    have hnot : rs.filter (fun r => !dupIsActive r) = rs := by
      apply List.filter_eq_self.mpr
      intro a ha
      simp [hall a ha]
    show (dupSort rs).head? = rs.head?
    unfold dupSort
    rw [hf, hnot]
    rfl
  · intro hlen
    have hperm := List.filter_append_perm dupIsActive rs
    have hlength : (dupSort rs).length = rs.length := hperm.length_eq
    match hd : dupSort rs with
    | [] =>
      rw [hd] at hlength
      simp at hlength
      omega
    | keep :: rest =>
      refine ⟨keep, rest, rfl, ?_, ?_⟩
      · show (dupSort rs).head? = some keep
        rw [hd]
        rfl
      · unfold groupDuplicates
        rw [if_pos hlen, hd]

/-- C5 witness: the amended statement applied to the concrete bucket
`[c5r1, c5r2]`. -/
theorem c5_witness :
    (survivorOf [c5r1, c5r2]).isSome = true ∧
    ([c5r1, c5r2].filter dupIsActive ≠ [] →
      ∃ a, survivorOf [c5r1, c5r2] = some a ∧ dupIsActive a = true) ∧
    ([c5r1, c5r2].filter dupIsActive = [] → survivorOf [c5r1, c5r2] = [c5r1, c5r2].head?) ∧
    ([c5r1, c5r2].length > 1 →
      ∃ keep rest, dupSort [c5r1, c5r2] = keep :: rest ∧
        survivorOf [c5r1, c5r2] = some keep ∧
        groupDuplicates [c5r1, c5r2] = rest.map fun r => ⟨r.id, keep.id⟩) :=
  c5_amended [c5r1, c5r2] (by decide)

/-! ### C6 -/

/-- C6 counterexample: for a guard-card pair that needs an update only
because the status fields differ, the emitted plan still contains the
employee-id and guard-card-number fields whose values are identical to
what the ledger already stores — the plan is not minimal. -/
theorem c6_counterexample :
    gcNeedsUpdate 0 c6pg c6air = true ∧
    c6air.rscEmpId = natToString c6pg.employee_id ∧
    ("RSC Emp ID", some c6air.rscEmpId) ∈ gcUpdateFields 0 c6pg ∧
    c6air.gc = c6pg.number.getD "" ∧
    ("GC - RSPG", some c6air.gc) ∈ gcUpdateFields 0 c6pg := by
  refine ⟨by decide, by decide, by decide, by decide, by decide⟩

/-- C6 amended: the contact-info `syncEmployeeData` plans are minimal —
every field in the map differs from the ledger's current (canonical)
value — but the guard-card sync always writes its full tracked field
set, including fields whose values already agree. -/
theorem c6_amended (off : Int) (air : AirRecord) (pg : PgEmployee) (k v : String)
    (hmem : (k, v) ∈ ciUpdateFields off air pg) :
    (k = "Name" ∧ v = pg.name ∧ air.name ≠ some v) ∨
    (k = "Status-RSPG" ∧ v = listedStatusOf pg.active ∧ air.statusRSPG ≠ some v) ∨
    (k = "Status" ∧ v = employmentStatusOf pg.active ∧ air.statusField ≠ some v) ∨
    (k = "RSC Hire Date" ∧ v ≠ formatDateToString off air.hireDate) := by
  simp only [ciUpdateFields, List.mem_append] at hmem
  rcases hmem with ((h | h) | h) | h
  · revert h
    split
    case isTrue hcond =>
      intro h
      simp only [List.mem_singleton, Prod.mk.injEq] at h
      obtain ⟨hk, hv⟩ := h
      exact Or.inl ⟨hk, hv, by rw [hv]; exact bne_iff_ne.mp hcond⟩
    case isFalse _ =>
      intro h
      simp at h
  · revert h
    split
    case isTrue hcond =>
      intro h
      simp only [List.mem_singleton, Prod.mk.injEq] at h
      obtain ⟨hk, hv⟩ := h
      exact Or.inr (Or.inl ⟨hk, hv, by rw [hv]; exact bne_iff_ne.mp hcond⟩)
    case isFalse _ =>
      intro h
      simp at h
  · revert h
    split
    case isTrue hcond =>
      intro h
      simp only [List.mem_singleton, Prod.mk.injEq] at h
      obtain ⟨hk, hv⟩ := h
      exact Or.inr (Or.inr (Or.inl ⟨hk, hv, by rw [hv]; exact bne_iff_ne.mp hcond⟩))
    case isFalse _ =>
      intro h
      simp at h
  · revert h
    cases hh : pg.hire_date with
    | none =>
      intro h
      simp at h
    | some t =>
      simp only
      split
      case isTrue hcond =>
        intro h
        simp only [List.mem_singleton, Prod.mk.injEq] at h
        obtain ⟨hk, hv⟩ := h
        refine Or.inr (Or.inr (Or.inr ⟨hk, ?_⟩))
        rw [hv]
        exact bne_iff_ne.mp hcond
      case isFalse _ =>
        intro h
        simp at h

/-- C6 witness: the minimality of a contact-info plan applied at a
concrete pair whose only difference is the name. -/
theorem c6_witness :
    ("Name" = "Name" ∧ "New Name" = c6wPg.name ∧ c6wAir.name ≠ some "New Name") ∨
    ("Name" = "Status-RSPG" ∧ "New Name" = listedStatusOf c6wPg.active ∧
      c6wAir.statusRSPG ≠ some "New Name") ∨
    ("Name" = "Status" ∧ "New Name" = employmentStatusOf c6wPg.active ∧
      c6wAir.statusField ≠ some "New Name") ∨
    ("Name" = "RSC Hire Date" ∧ "New Name" ≠ formatDateToString 0 c6wAir.hireDate) :=
  c6_amended 0 c6wAir c6wPg "Name" "New Name" (by decide)

/-! ### C7 -/

/-- C7: both status fields are recomputed from the source's active flag
through the fixed mapping (`true ↦ ("Active", "Hired")`,
`false ↦ ("Inactive", "Separated")`) and land in the plan exactly when
they differ from the current ledger values, independently of every
other field — in `syncEmployeeData`'s plan builder and in
`determineUpdates` alike. -/
theorem c7_status_healing (off : Int) (air : AirRecord) (pg : PgEmployee) :
    (("Status-RSPG", listedStatusOf pg.active) ∈ ciUpdateFields off air pg ↔
      air.statusRSPG ≠ some (listedStatusOf pg.active)) ∧
    (("Status", employmentStatusOf pg.active) ∈ ciUpdateFields off air pg ↔
      air.statusField ≠ some (employmentStatusOf pg.active)) ∧
    (determineUpdates air pg).needsStatusRSPG =
      (air.statusRSPG != some (listedStatusOf pg.active)) ∧
    (determineUpdates air pg).needsStatusField =
      (air.statusField != some (employmentStatusOf pg.active)) ∧
    listedStatusOf true = "Active" ∧ employmentStatusOf true = "Hired" ∧
    listedStatusOf false = "Inactive" ∧ employmentStatusOf false = "Separated" := by
  refine ⟨?_, ?_, rfl, rfl, rfl, rfl, rfl, rfl⟩ <;>
  · by_cases h1 : (air.name != some pg.name) = true <;>
      by_cases h2 : (air.statusRSPG != some (listedStatusOf pg.active)) = true <;>
        by_cases h3 : (air.statusField != some (employmentStatusOf pg.active)) = true <;>
          cases hh : pg.hire_date <;>
            simp_all [ciUpdateFields, listedStatusOf, employmentStatusOf]

